import Mathlib

/-!
Verification of the ProMan frontend shell.

The repository ships two source files:
* `src/frontend/src/App.tsx` — the navigation shell: a header with four
  links and a react-router `Routes` block with five `Route` entries
  (four splat patterns delegating to feature modules plus the exact
  root path with a static welcome heading);
* a Vite build configuration (`defineConfig` call) selecting plugins and
  production build options.

The shell is embedded shallowly.  A URL path is a `String`; matching is
the react-router semantics on slash-separated segments (a trailing `*`
in a pattern means the pattern segments before it must lead the path
segments; otherwise the segment lists must be equal).  The `Routes`
component mounts the element of the best-ranked matching `Route`; the
five patterns of this table are pairwise disjoint, so the best-ranked
match coincides with the first match in source order, which is how the
outlet is defined below.  The build configuration is pure data and is
embedded as a record value.
-/

/-- The elements the shell can place in the router outlet: the four
feature delegates imported in `App.tsx` and the static welcome heading. -/
inductive RouteElement where
  | userAuthRoutes
  | projectsRoutes
  | tasksRoutes
  | chatRoutes
  | welcomeHeading
  deriving DecidableEq, Repr

/-- Split a character list at every slash (`String.splitOn` semantics,
restated recursively so the kernel can evaluate it). -/
def splitSlash : List Char → List (List Char)
  | [] => [[]]
  | c :: cs =>
      if c = '/' then [] :: splitSlash cs
      else
        match splitSlash cs with
        | [] => [[c]]
        | s :: ss => (c :: s) :: ss

/-- The nonempty slash-separated segments of a URL path, as react-router
normalises a pathname (repeated and trailing slashes are dropped). -/
def pathSegments (p : String) : List String :=
  ((splitSlash p.toList).map (fun cs => String.mk cs)).filter (fun s => s ≠ "")

/-- `leadsWith base segs` is true when `base` is an initial run of `segs`. -/
def leadsWith : List String → List String → Bool
  | [], _ => true
  | _ :: _, [] => false
  | p :: ps, s :: ss => p == s && leadsWith ps ss

/-- When the pattern segments end in the splat `*`, return the segments
before it; otherwise `none`. -/
def splatBase : List String → Option (List String)
  | [] => none
  | ["*"] => some []
  | p :: ps => (splatBase ps).map (fun b => p :: b)

/-- React-router pattern matching for the pattern shapes used in
`App.tsx`: a pattern ending in `/*` matches any path whose segments
start with the pattern base; any other pattern matches exactly. -/
def matchPattern (pat : String) (path : String) : Bool :=
  match splatBase (pathSegments pat) with
  | some base => leadsWith base (pathSegments path)
  | none => decide (pathSegments pat = pathSegments path)

/-- The route table of the `Routes` block in `AppLayout`
(`src/frontend/src/App.tsx`, lines 18 to 24), in source order. -/
def appRoutes : List (String × RouteElement) :=
  [("/auth/*", RouteElement.userAuthRoutes),
   ("/projects/*", RouteElement.projectsRoutes),
   ("/tasks/*", RouteElement.tasksRoutes),
   ("/chat/*", RouteElement.chatRoutes),
   ("/", RouteElement.welcomeHeading)]

/-- The table entries whose pattern matches the given path. -/
def matchingEntries (path : String) : List (String × RouteElement) :=
  appRoutes.filter (fun r => matchPattern r.1 path)

/-- The element the `Routes` block renders for a path: the element of
the first matching entry, or nothing when no entry matches. -/
def renderOutlet (path : String) : Option RouteElement :=
  (matchingEntries path).head?.map (fun r => r.2)

/-- The route subtrees mounted at a path, as a list (empty when the
outlet is blank). -/
def activeSubtrees (path : String) : List RouteElement :=
  (renderOutlet path).toList

/-- One anchor of the header `nav` element; `toPath` is the `to`
attribute of the `Link`. -/
structure HeaderLink where
  toPath : String
  label : String
  deriving DecidableEq, Repr

/-- The four header links of `AppLayout`, in source order. -/
def headerNav : List HeaderLink :=
  [{ toPath := "/projects", label := "Projects" },
   { toPath := "/tasks", label := "Tasks" },
   { toPath := "/chat", label := "Chat" },
   { toPath := "/login", label := "Login" }]

/-- The observable rendering of `AppLayout` for a path: the header links
and the content of the `main` region (the router outlet). -/
structure RenderedLayout where
  header : List HeaderLink
  main : Option RouteElement
  deriving DecidableEq, Repr

/-- `AppLayout` as a function of the current URL path. -/
def appLayout (path : String) : RenderedLayout :=
  { header := headerNav, main := renderOutlet path }

/-- Browser navigation state: the current URL path and how many full
document loads have happened. -/
structure NavState where
  path : String
  documentLoads : Nat
  deriving DecidableEq, Repr

/-- Modelled from the spec: clicking a header `Link` performs
client-side navigation — react-router (a library collaborator, not part
of this repository) updates the path via the history API without a full
document reload.  The router then re-evaluates the route table at the
new path. -/
def navigate (s : NavState) (target : String) : NavState :=
  { path := target, documentLoads := s.documentLoads }

/-- The routing table exactly as the specification states it, keyed on
path segments: first segment `auth` mounts authentication, `projects`
the projects tree, `tasks` the tasks tree, `chat` the chat tree; the
root path (no segments) shows the welcome heading; anything else shows
nothing.  This is the spec side of the refinement checked in C1. -/
def specRoutingTable (segs : List String) : Option RouteElement :=
  match segs with
  | [] => some RouteElement.welcomeHeading
  | a :: _ =>
      if a = "auth" then some RouteElement.userAuthRoutes
      else if a = "projects" then some RouteElement.projectsRoutes
      else if a = "tasks" then some RouteElement.tasksRoutes
      else if a = "chat" then some RouteElement.chatRoutes
      else none

/-- Terser `compress` options from the Vite config. -/
structure CompressOptions where
  drop_console : Bool
  deriving DecidableEq, Repr

/-- The `terserOptions` record from the Vite config. -/
structure TerserOptions where
  compress : CompressOptions
  deriving DecidableEq, Repr

/-- The `build` record from the Vite config. -/
structure BuildOptions where
  outDir : String
  minify : String
  terserOptions : TerserOptions
  chunkSizeWarningLimit : Nat
  deriving DecidableEq, Repr

/-- Babel options passed to the react plugin. -/
structure BabelOptions where
  plugins : List String
  deriving DecidableEq, Repr

/-- A plugin entry of the Vite config. -/
inductive VitePlugin where
  | react (babel : BabelOptions)
  | tailwindcss
  deriving DecidableEq, Repr

/-- The value passed to `defineConfig`. -/
structure ViteConfig where
  plugins : List VitePlugin
  build : BuildOptions
  deriving DecidableEq, Repr

/-- The build configuration of the repository (`src/unnamed/part_000`). -/
def viteConfig : ViteConfig :=
  { plugins :=
      [VitePlugin.react { plugins := ["babel-plugin-react-compiler"] },
       VitePlugin.tailwindcss],
    build :=
      { outDir := "build",
        minify := "terser",
        terserOptions := { compress := { drop_console := true } },
        chunkSizeWarningLimit := 2000 } }

/-! Helper lemmas: each concrete pattern of the table, applied to an
arbitrary path, reduces to a condition on the path segments. -/

theorem matchPattern_auth (path : String) :
    matchPattern "/auth/*" path = leadsWith ["auth"] (pathSegments path) := rfl

theorem matchPattern_projects (path : String) :
    matchPattern "/projects/*" path = leadsWith ["projects"] (pathSegments path) := rfl

theorem matchPattern_tasks (path : String) :
    matchPattern "/tasks/*" path = leadsWith ["tasks"] (pathSegments path) := rfl

theorem matchPattern_chat (path : String) :
    matchPattern "/chat/*" path = leadsWith ["chat"] (pathSegments path) := rfl

theorem matchPattern_root (path : String) :
    matchPattern "/" path = decide ([] = pathSegments path) := rfl

/-- The outlet agrees with the routing table of the spec on every path. -/
theorem renderOutlet_eq_specRoutingTable (path : String) :
    renderOutlet path = specRoutingTable (pathSegments path) := by
  simp only [renderOutlet, matchingEntries, appRoutes, List.filter_cons,
    List.filter_nil, matchPattern_auth, matchPattern_projects,
    matchPattern_tasks, matchPattern_chat, matchPattern_root]
  cases hs : pathSegments path with
  | nil =>
      simp [leadsWith, specRoutingTable]
  | cons a t =>
      simp only [leadsWith, Bool.and_true, specRoutingTable]
      by_cases ha : a = "auth"
      · subst ha; simp
      · by_cases hp : a = "projects"
        · subst hp; simp
        · by_cases ht : a = "tasks"
          · subst ht; simp
          · by_cases hc : a = "chat"
            · subst hc; simp
            · simp [ha, hp, ht, hc, Ne.symm ha, Ne.symm hp, Ne.symm ht, Ne.symm hc]

/-! The ten claims. -/

/-- C1: For every URL path, the shell dispatches according to the
routing table: paths matching `/auth/*` mount the authentication route
tree, `/projects/*` the projects tree, `/tasks/*` the tasks tree,
`/chat/*` the chat tree, and the exact root path renders the static
welcome heading; any other path renders no matched subtree. -/
theorem shell_dispatches_per_routing_table (path : String) :
    renderOutlet path = specRoutingTable (pathSegments path) :=
  renderOutlet_eq_specRoutingTable path

/-- C2 (amended): the router mounts at most one delegate for any path,
and exactly one for every path that matches some table entry.  The
original universal claim of exactly one is refuted at `/unknown`. -/
theorem router_mounts_at_most_one (path : String) :
    (activeSubtrees path).length ≤ 1
    ∧ (matchingEntries path ≠ [] → (activeSubtrees path).length = 1) := by
  constructor
  · cases h : renderOutlet path <;> simp [activeSubtrees, h]
  · intro hne
    cases h : matchingEntries path with
    | nil => exact absurd h hne
    | cons r rs => simp [activeSubtrees, renderOutlet, h]

/-- C2 witness: at `/projects` the bound is met with exactly one
mounted subtree. -/
theorem router_mounts_at_most_one_witness :
    (activeSubtrees "/projects").length ≤ 1
    ∧ (activeSubtrees "/projects").length = 1 :=
  ⟨(router_mounts_at_most_one "/projects").1,
   (router_mounts_at_most_one "/projects").2 (by decide)⟩

/-- C2 counterexample: at the path `/unknown` no subtree is active, so
it is not the case that every path has exactly one active subtree. -/
theorem no_active_subtree_at_unknown :
    activeSubtrees "/unknown" = [] ∧ (activeSubtrees "/unknown").length ≠ 1 := by
  decide

/-- C3: every path matching `/projects/*` mounts the projects delegate
and nothing else. -/
theorem projects_is_only_delegate (path : String)
    (h : matchPattern "/projects/*" path = true) :
    activeSubtrees path = [RouteElement.projectsRoutes] := by
  rw [matchPattern_projects] at h
  have hs := renderOutlet_eq_specRoutingTable path
  cases hp : pathSegments path with
  | nil => rw [hp] at h; simp [leadsWith] at h
  | cons a t =>
      rw [hp] at h
      simp only [leadsWith, Bool.and_eq_true, beq_iff_eq] at h
      obtain ⟨ha, -⟩ := h
      subst ha
      rw [hp] at hs
      simp [activeSubtrees, hs, specRoutingTable]

/-- C3 witness: the nested path `/projects/42` mounts exactly the
projects delegate. -/
theorem projects_is_only_delegate_witness :
    activeSubtrees "/projects/42" = [RouteElement.projectsRoutes] :=
  projects_is_only_delegate "/projects/42" (by decide)

/-- C4: a path matching none of the five table entries renders no route
content: the outlet is blank. -/
theorem unmatched_path_renders_blank (path : String)
    (h : ∀ r ∈ appRoutes, matchPattern r.1 path = false) :
    renderOutlet path = none ∧ activeSubtrees path = [] := by
  have h1 := h ("/auth/*", RouteElement.userAuthRoutes) (by simp [appRoutes])
  have h2 := h ("/projects/*", RouteElement.projectsRoutes) (by simp [appRoutes])
  have h3 := h ("/tasks/*", RouteElement.tasksRoutes) (by simp [appRoutes])
  have h4 := h ("/chat/*", RouteElement.chatRoutes) (by simp [appRoutes])
  have h5 := h ("/", RouteElement.welcomeHeading) (by simp [appRoutes])
  have hempty : matchingEntries path = [] := by
    simp only [matchingEntries, appRoutes, List.filter_cons, List.filter_nil] at *
    simp [h1, h2, h3, h4, h5]
  exact ⟨by simp [renderOutlet, hempty], by simp [activeSubtrees, renderOutlet, hempty]⟩

/-- C4 witness: the path `/unknown` matches no entry and renders
blank. -/
theorem unmatched_path_renders_blank_witness :
    renderOutlet "/unknown" = none ∧ activeSubtrees "/unknown" = [] :=
  unmatched_path_renders_blank "/unknown" (by decide)

/-- C5: at the exact root path the welcome heading is the only content
of the main region; no feature delegate is mounted there. -/
theorem welcome_only_at_root :
    (appLayout "/").main = some RouteElement.welcomeHeading
    ∧ activeSubtrees "/" = [RouteElement.welcomeHeading] := by
  decide

/-- C6: every path matching `/auth/*`, in particular `/auth/login` and
every nested sub-path, mounts the authentication delegate. -/
theorem auth_delegate_under_auth (path : String)
    (h : matchPattern "/auth/*" path = true) :
    activeSubtrees path = [RouteElement.userAuthRoutes] := by
  rw [matchPattern_auth] at h
  have hs := renderOutlet_eq_specRoutingTable path
  cases hp : pathSegments path with
  | nil => rw [hp] at h; simp [leadsWith] at h
  | cons a t =>
      rw [hp] at h
      simp only [leadsWith, Bool.and_eq_true, beq_iff_eq] at h
      obtain ⟨ha, -⟩ := h
      subst ha
      rw [hp] at hs
      simp [activeSubtrees, hs, specRoutingTable]

/-- C6 witness: `/auth/login` mounts the authentication delegate. -/
theorem auth_delegate_under_auth_witness :
    activeSubtrees "/auth/login" = [RouteElement.userAuthRoutes] :=
  auth_delegate_under_auth "/auth/login" (by decide)

/-- C7: a client-side navigation step from `/tasks` to `/chat` unmounts
the tasks delegate and mounts the chat delegate with no full document
reload; in general a navigation step leaves the mounted subtree
determined by the new path alone and never increments the document
load count. -/
theorem nav_tasks_to_chat (s : NavState) (target : String)
    (h : s.path = "/tasks") :
    activeSubtrees s.path = [RouteElement.tasksRoutes]
    ∧ activeSubtrees (navigate s "/chat").path = [RouteElement.chatRoutes]
    ∧ (navigate s "/chat").documentLoads = s.documentLoads
    ∧ activeSubtrees (navigate s target).path = activeSubtrees target
    ∧ (navigate s target).documentLoads = s.documentLoads := by
  refine ⟨?_, ?_, rfl, rfl, rfl⟩
  · rw [h]; decide
  · show activeSubtrees "/chat" = [RouteElement.chatRoutes]
    decide

/-- C7 witness: the concrete navigation from state `/tasks` (no loads)
to `/chat`. -/
theorem nav_tasks_to_chat_witness :
    activeSubtrees (NavState.mk "/tasks" 0).path = [RouteElement.tasksRoutes]
    ∧ activeSubtrees (navigate (NavState.mk "/tasks" 0) "/chat").path
        = [RouteElement.chatRoutes]
    ∧ (navigate (NavState.mk "/tasks" 0) "/chat").documentLoads
        = (NavState.mk "/tasks" 0).documentLoads
    ∧ activeSubtrees (navigate (NavState.mk "/tasks" 0) "/unknown").path
        = activeSubtrees "/unknown"
    ∧ (navigate (NavState.mk "/tasks" 0) "/unknown").documentLoads
        = (NavState.mk "/tasks" 0).documentLoads :=
  nav_tasks_to_chat (NavState.mk "/tasks" 0) "/unknown" rfl

/-- C8: the header is rendered for every path, is identical regardless
of the active subtree, and carries the four section links. -/
theorem header_identical_for_all_paths (p q : String) :
    (appLayout p).header = (appLayout q).header
    ∧ (appLayout p).header = headerNav
    ∧ (appLayout p).header.map HeaderLink.label
        = ["Projects", "Tasks", "Chat", "Login"]
    ∧ (appLayout p).header.map HeaderLink.toPath
        = ["/projects", "/tasks", "/chat", "/login"] :=
  ⟨rfl, rfl, rfl, rfl⟩

/-- C9: the build configuration equals the stated selections: the react
plugin with the babel react-compiler transform, the tailwind plugin,
output directory `build`, minifier `terser`, console stripping on, and
chunk size warning limit 2000. -/
theorem build_config_as_stated :
    viteConfig.plugins
        = [VitePlugin.react { plugins := ["babel-plugin-react-compiler"] },
           VitePlugin.tailwindcss]
    ∧ viteConfig.build.outDir = "build"
    ∧ viteConfig.build.minify = "terser"
    ∧ viteConfig.build.terserOptions.compress.drop_console = true
    ∧ viteConfig.build.chunkSizeWarningLimit = 2000 :=
  ⟨rfl, rfl, rfl, rfl, rfl⟩

/-- C10: the header Login link points at `/login`, which matches no
entry of the routing table, so following it renders no route content in
the main region. -/
theorem login_link_renders_blank :
    ({ toPath := "/login", label := "Login" } : HeaderLink) ∈ headerNav
    ∧ matchingEntries "/login" = []
    ∧ renderOutlet "/login" = none
    ∧ (appLayout "/login").main = none := by
  decide
